import Mathlib

/-!
Verification development for the Jarvis-on-Celo risk monitor
(`src/main.py`, `src/main_local.py` of iMaginarParas/singapore-token-hackathon).

Modelling conventions for the shallow embedding:

* Python floats become exact rationals (`ℚ`); every concrete value appearing
  in the properties below is exactly representable, and all comparisons in
  the source are strict inequalities far from representation boundaries.
* Fallible Python code is modelled with `Except String`; a division whose
  divisor is zero raises in Python, so each unguarded division site is
  preceded by an explicit zero test producing `.error "ZeroDivisionError"`,
  in the same evaluation order as the source.
* `str.lower()` is modelled by `pyLower`, an ASCII-faithful character map
  (the only strings it is applied to are yes/no responses).
* The SQLite `actions` table is modelled as a map from action id to the row
  fields the approval workflow reads or writes; `UPDATE … WHERE action_id=?`
  rewrites exactly the matching row and is a no-op when the id is absent.
* Presentation-only strings (the alert `message` built with `:.1f` float
  formatting, Telegram texts, AI prompts) are elided: no claim mentions
  them, and the metric/severity/type payloads are kept in full.
-/

namespace Jarvis

/-- ASCII lower-casing of one character, as Python `str.lower` does for the
ASCII range. -/
def pyCharLower (c : Char) : Char :=
  if 'A' ≤ c ∧ c ≤ 'Z' then Char.ofNat (c.toNat + 32) else c

/-- Model of Python `str.lower()` (ASCII inputs only in this code base). -/
def pyLower (s : String) : String := ⟨s.data.map pyCharLower⟩

/-- Severity enumeration from `class Severity(str, Enum)` in `src/main.py`. -/
inductive Severity where
  | LOW
  | MEDIUM
  | HIGH
  | CRITICAL
  deriving DecidableEq, Repr

/-- String value of a severity member, as Python formats the str-enum. -/
def Severity.val : Severity → String
  | .LOW => "LOW"
  | .MEDIUM => "MEDIUM"
  | .HIGH => "HIGH"
  | .CRITICAL => "CRITICAL"

/-- Values stored in an alert's free-form `metrics` dict: the source stores
numbers everywhere except the `"protocol"` entry of an impermanent-loss
alert, which is a string. -/
inductive MetricVal where
  | num (q : ℚ)
  | str (s : String)
  deriving DecidableEq, Repr

/-- `PoolData` pydantic model from `src/main.py`. -/
structure PoolData where
  pool_address : String
  reserve0 : String
  reserve1 : String
  tvl : ℚ
  ratio : ℚ
  timestamp : ℤ
  deriving DecidableEq, Repr

/-- `TokenBalance` pydantic model from `src/main.py`. -/
structure TokenBalance where
  token : String
  symbol : String
  balance : String
  valueUSD : ℚ
  deriving DecidableEq, Repr

/-- `PositionData` pydantic model from `src/main.py`. -/
structure PositionData where
  protocol : String
  type : String
  tokens : List String
  value : ℚ
  apy : Option ℚ
  deriving DecidableEq, Repr

/-- `WalletPortfolio` pydantic model from `src/main.py`. -/
structure WalletPortfolio where
  address : String
  totalValueUSD : ℚ
  celoBalance : String
  cUSDBalance : String
  tokens : List TokenBalance
  positions : List PositionData
  timestamp : ℤ
  deriving DecidableEq, Repr

/-- `RiskAlert` pydantic model (the presentation-only `message` field is
elided, see the module comment). -/
structure RiskAlert where
  severity : Severity
  metrics : List (String × MetricVal)
  alertType : String
  deriving DecidableEq, Repr

/-- Python `history[-20:]`: the last at-most-20 entries of the history. -/
def lastWindow (history : List PoolData) : List PoolData :=
  history.drop (history.length - 20)

/-- `recent_avg_tvl = sum(d.tvl for d in history[-20:]) / min(20, len(history[-20:]))`
from `detect_pool_anomalies`.  The divisor is an integer ≥ 10 at every call
site (guarded by the length check), never zero. -/
def recentAvgTvl (history : List PoolData) : ℚ :=
  ((lastWindow history).map PoolData.tvl).sum / (min 20 (lastWindow history).length : ℚ)

/-- `avg_ratio = sum(d.ratio for d in history[-20:]) / min(20, len(history[-20:]))`
from `detect_pool_anomalies`. -/
def avgRatio (history : List PoolData) : ℚ :=
  ((lastWindow history).map PoolData.ratio).sum / (min 20 (lastWindow history).length : ℚ)

/-- The TVL-drop branch of `detect_pool_anomalies` (`src/main.py:476-489`):
the list of risks appended by the two `tvl_change` threshold tests. -/
def tvlDropRisks (tvl_change : ℚ) : List RiskAlert :=
  if tvl_change < -20 then
    [⟨.CRITICAL, [("tvlChange", .num tvl_change)], "pool_tvl_drop"⟩]
  else if tvl_change < -10 then
    [⟨.HIGH, [("tvlChange", .num tvl_change)], "pool_tvl_drop"⟩]
  else []

/-- The reserve-imbalance branch of `detect_pool_anomalies`
(`src/main.py:494-500`). -/
def imbalanceRisks (ratio_change : ℚ) : List RiskAlert :=
  if ratio_change > 30 then
    [⟨.HIGH, [("reserveImbalance", .num ratio_change)], "pool_imbalance"⟩]
  else []

/-- `detect_pool_anomalies` from `src/main.py:468-502` (identical in
`src/main_local.py:389-423`).  Python raises `ZeroDivisionError` when
`recent_avg_tvl` or `avg_ratio` is zero; the error checks sit exactly where
the corresponding divisions occur in the source.  `risks[0] if risks else
None` becomes `List.head?`. -/
def detect_pool_anomalies (current : PoolData) (history : List PoolData) :
    Except String (Option RiskAlert) :=
  if history.length < 10 then .ok none
  else if recentAvgTvl history = 0 then .error "ZeroDivisionError"
  else
    let tvl_change := (current.tvl - recentAvgTvl history) / recentAvgTvl history * 100
    if avgRatio history = 0 then .error "ZeroDivisionError"
    else
      let ratio_change := |(current.ratio - avgRatio history) / avgRatio history * 100|
      .ok (tvlDropRisks tvl_change ++ imbalanceRisks ratio_change).head?

/-- The total-value branch of `detect_wallet_risks` (`src/main.py:512-525`). -/
def valueDropRisks (value_change current_total : ℚ) : List RiskAlert :=
  if value_change < -30 then
    [⟨.CRITICAL, [("valueChange", .num value_change), ("currentValue", .num current_total)],
      "wallet_value_drop"⟩]
  else if value_change < -15 then
    [⟨.HIGH, [("valueChange", .num value_change), ("currentValue", .num current_total)],
      "wallet_value_drop"⟩]
  else []

/-- The per-position loop of `detect_wallet_risks` (`src/main.py:527-538`):
for each current liquidity-pool position whose protocol also appears in the
previous snapshot with positive value, a MEDIUM impermanent-loss alert when
the position value fell more than 10%.  This is the one division site the
source guards (`prev_pos.value > 0`). -/
def impermanentLossRisks (current prev : WalletPortfolio) : List RiskAlert :=
  current.positions.filterMap fun pos =>
    if pos.type = "Liquidity Pool" then
      match prev.positions.find? (fun p => p.protocol == pos.protocol) with
      | some prev_pos =>
        if prev_pos.value > 0 then
          let pos_change := (pos.value - prev_pos.value) / prev_pos.value * 100
          if pos_change < -10 then
            some ⟨.MEDIUM,
              [("positionChange", .num pos_change), ("protocol", .str pos.protocol)],
              "impermanent_loss"⟩
          else none
        else none
      | none => none
    else none

/-- `detect_wallet_risks` from `src/main.py:504-540`.  `prev = history[-1]`
is the last history entry; dividing by `prev.totalValueUSD` raises when it
is zero. -/
def detect_wallet_risks (current : WalletPortfolio) (history : List WalletPortfolio) :
    Except String (Option RiskAlert) :=
  if history.length < 2 then .ok none
  else
    match history.getLast? with
    | none => .ok none
    | some prev =>
      if prev.totalValueUSD = 0 then .error "ZeroDivisionError"
      else
        let value_change :=
          (current.totalValueUSD - prev.totalValueUSD) / prev.totalValueUSD * 100
        .ok (valueDropRisks value_change current.totalValueUSD ++
              impermanentLossRisks current prev).head?

/-- `detect_wallet_risks` from `src/main_local.py:425-448`: identical to the
`src/main.py` version except that the per-position impermanent-loss loop is
absent. -/
def detect_wallet_risks_local (current : WalletPortfolio) (history : List WalletPortfolio) :
    Except String (Option RiskAlert) :=
  if history.length < 2 then .ok none
  else
    match history.getLast? with
    | none => .ok none
    | some prev =>
      if prev.totalValueUSD = 0 then .error "ZeroDivisionError"
      else
        let value_change :=
          (current.totalValueUSD - prev.totalValueUSD) / prev.totalValueUSD * 100
        .ok (valueDropRisks value_change current.totalValueUSD).head?

/-- Pool snapshot with the given TVL and reserve ratio (the remaining fields
never influence detection). -/
def mkPool (tvl ratio : ℚ) : PoolData := ⟨"0xpool", "0", "0", tvl, ratio, 0⟩

/-- Wallet snapshot with the given total value and no positions. -/
def mkWallet (total : ℚ) : WalletPortfolio := ⟨"0xwallet", total, "0", "0", [], [], 0⟩

/-- Wallet snapshot with the given total value and one Ubeswap
liquidity-pool position of the given value. -/
def mkWalletLP (total posValue : ℚ) : WalletPortfolio :=
  ⟨"0xwallet", total, "0", "0", [],
    [⟨"Ubeswap", "Liquidity Pool", ["CELO", "cUSD"], posValue, some (31/2)⟩], 0⟩

/-- Row of the SQLite `actions` table, restricted to the fields the approval
workflow reads or writes (`status`, `user_response`); timestamps are not
modelled. -/
structure ActionRecord where
  status : String
  user_response : Option String
  deriving DecidableEq, Repr

/-- Mutable server state touched by the approval workflow: the `actions`
table rows keyed by `action_id`, and the transient in-memory
`pending_actions` index (a dict keyed by action id; we track its key set). -/
structure ServerState where
  actions : Nat → Option ActionRecord
  pending_actions : List Nat

/-- `update_action_response` from `src/main.py:298-308`: an unconditional
`UPDATE actions SET status=?, user_response=? WHERE action_id=?`, with
status `approved` when the lower-cased response is `yes` and `rejected`
otherwise.  When no row has the id, the UPDATE matches nothing. -/
def update_action_response (s : ServerState) (action_id : Nat) (response : String) :
    ServerState :=
  let status := if pyLower response = "yes" then "approved" else "rejected"
  { s with actions := fun id =>
      if id = action_id then
        match s.actions id with
        | some r => some { r with status := status, user_response := some response }
        | none => none
      else s.actions id }

/-- `mark_action_executed` from `src/main.py:310-319`: unconditional
`UPDATE actions SET status = executed WHERE action_id=?`. -/
def mark_action_executed (s : ServerState) (action_id : Nat) : ServerState :=
  { s with actions := fun id =>
      if id = action_id then
        match s.actions id with
        | some r => some { r with status := "executed" }
        | none => none
      else s.actions id }

/-- `respond_to_action` from `src/main.py:1446-1470` (`POST
/actions/{action_id}/respond`): it first calls `update_action_response`
unconditionally, then looks the id up in `pending_actions`; on a hit with a
yes response it also calls `mark_action_executed` and reports `approved`,
on a hit with any other response it reports `rejected`, and on a miss it
reports `Action not found`.  It never removes the id from
`pending_actions`.  The second component is the status/error string of the
returned JSON payload. -/
def respond_to_action (s : ServerState) (action_id : Nat) (response : String) :
    ServerState × String :=
  let s1 := update_action_response s action_id response
  if action_id ∈ s1.pending_actions then
    if pyLower response = "yes" then (mark_action_executed s1 action_id, "approved")
    else (s1, "rejected")
  else (s1, "Action not found")

/-- The callback branch of `telegram_webhook` from `src/main.py:949-991`:
`update_action_response` runs unconditionally; when the id is in
`pending_actions` the action is marked executed on a literal `"yes"`
response and the id is deleted from `pending_actions`; on a miss nothing
else happens.  Message sends are external effects and not modelled. -/
def telegram_webhook_callback (s : ServerState) (action_id : Nat) (response : String) :
    ServerState :=
  let s1 := update_action_response s action_id response
  if action_id ∈ s1.pending_actions then
    let s2 := if response = "yes" then mark_action_executed s1 action_id else s1
    { s2 with pending_actions := s2.pending_actions.erase action_id }
  else s1

/-- Initial state for the C2 scenario: one action, id 1, pending and in the
pending index. -/
def pendingOneState : ServerState :=
  ⟨fun id => if id = 1 then some ⟨"pending", none⟩ else none, [1]⟩

/-- State after the first "no" response to action 1 arrives through the
webhook callback path, which is the one path that removes the id from the
pending index. -/
def afterNoState : ServerState := telegram_webhook_callback pendingOneState 1 "no"

/-- State for the C3 scenario: action 1 already executed and no longer in
the pending index. -/
def executedOneState : ServerState :=
  ⟨fun id => if id = 1 then some ⟨"executed", some "yes"⟩ else none, []⟩

/-- Second state for the C3 scenario: action 1 already rejected and no
longer in the pending index. -/
def rejectedOneState : ServerState :=
  ⟨fun id => if id = 1 then some ⟨"rejected", some "no"⟩ else none, []⟩

/-- `ActionDecision`: the four-field JSON object `generate_action_decision`
is documented to return. -/
structure ActionDecision where
  action : String
  reasoning : String
  urgency : String
  risk_if_ignored : String
  deriving DecidableEq, Repr

/-- Outcome of the AI collaborator round inside `generate_action_decision`:
the `replicate_client.run` call raised; or it returned text on which
`json.loads` raises (not valid JSON); or the text parsed to a decision. -/
inductive AIOutcome where
  | raised
  | invalidJSON (raw : String)
  | parsed (d : ActionDecision)
  deriving DecidableEq, Repr

/-- `generate_action_decision` from `src/main.py:545-599` (same control
flow in `src/main_local.py:453-483`): a parsed JSON payload is returned
as-is; a `json.loads` failure is caught by the inner `except`, which
returns the constant "Review Portfolio" decision; an exception from the
collaborator call itself is caught by the outer `except`, which returns the
"Monitor Situation" decision whose urgency depends on the alert severity. -/
def generate_action_decision (alert : RiskAlert) (ai : AIOutcome) : ActionDecision :=
  match ai with
  | .parsed d => d
  | .invalidJSON _ =>
      ⟨"Review Portfolio", "Anomaly detected, manual review recommended", "soon",
        "Potential losses may increase"⟩
  | .raised =>
      ⟨"Monitor Situation", alert.severity.val ++ " alert triggered",
        if alert.severity = .CRITICAL then "immediate" else "soon",
        "Situation may worsen"⟩

/-- History append with cap: `history.append(x)` followed by
`if len(history) > cap: history.pop(0)`.  This exact pair of statements
follows every snapshot append in `monitor_loop` (`src/main.py:857-859`,
`904-906`), `check_pool_endpoint` (`1265`, `1278-1284`) and
`analyze_wallet` (`1386-1394`), with cap 100 for pools and 50 for
wallets. -/
def appendTrim {α : Type} (cap : Nat) (history : List α) (x : α) : List α :=
  if cap < (history ++ [x]).length then (history ++ [x]).drop 1 else history ++ [x]

/-- One pool iteration of `monitor_loop` (`src/main.py:828-859`), reduced
to its history/detection effect: anomalies are detected against the STORED
history, and only afterwards is the fresh snapshot appended and the
history trimmed to 100 entries. -/
def monitor_pool_step (history : List PoolData) (current : PoolData) :
    Except String (Option RiskAlert) × List PoolData :=
  (detect_pool_anomalies current history, appendTrim 100 history current)

/-- The `/pool/check` endpoint (`src/main.py:1256-1286`), reduced to its
history/detection effect: the fresh snapshot is appended FIRST, detection
runs on the history that already contains it, and the history is trimmed
to 100 entries afterwards (on both the alert and no-alert return paths). -/
def check_pool_step (history : List PoolData) (current : PoolData) :
    Except String (Option RiskAlert) × List PoolData :=
  let h1 := history ++ [current]
  (detect_pool_anomalies current h1, if 100 < h1.length then h1.drop 1 else h1)

/-- One wallet iteration of `monitor_loop` (`src/main.py:864-906`):
detection against the stored history, then append and trim to 50. -/
def monitor_wallet_step (history : List WalletPortfolio) (current : WalletPortfolio) :
    Except String (Option RiskAlert) × List WalletPortfolio :=
  (detect_wallet_risks current history, appendTrim 50 history current)

/-- The `/wallet/analyze` endpoint (`src/main.py:1357-1398`): detection
against the stored history, then append and trim to 50 (on both return
paths). -/
def analyze_wallet_step (history : List WalletPortfolio) (current : WalletPortfolio) :
    Except String (Option RiskAlert) × List WalletPortfolio :=
  (detect_wallet_risks current history, appendTrim 50 history current)

/-- Monitoring control state: the global `monitoring_active` flag plus a
count of background `monitor_loop` tasks ever started
(`background_tasks.add_task(monitor_loop)` occurrences). -/
structure MonitorState where
  monitoring_active : Bool
  loops_started : Nat
  deriving DecidableEq, Repr

/-- `start_monitoring` from `src/main.py:1557-1568` (`POST /monitor/start`):
an early `already_running` return when the flag is set, otherwise set the
flag, schedule one background loop, and report `started`. -/
def start_monitoring (s : MonitorState) : MonitorState × String :=
  if s.monitoring_active then (s, "already_running")
  else (⟨true, s.loops_started + 1⟩, "started")

/-- `stop_monitoring` from `src/main.py:1570-1575` (`POST /monitor/stop`):
unconditionally clear the flag and report `stopped`. -/
def stop_monitoring (s : MonitorState) : MonitorState × String :=
  ({ s with monitoring_active := false }, "stopped")

end Jarvis

namespace Jarvis

/-- C1 counterexample: with a history of exactly one prior snapshot of total
value 1000, `detect_wallet_risks` returns no alert at all (the `len(history)
< 2` guard fires), not a HIGH `wallet_value_drop`; and with a two-entry
history whose last total is 1000, a current total of 650 (a −35% change)
yields a CRITICAL alert, not HIGH, because −35 < −30. -/
theorem C1_wallet_value_drop_counterexample :
    detect_wallet_risks (mkWallet 600) [mkWallet 1000] = .ok none ∧
    detect_wallet_risks (mkWallet 650) [mkWallet 2000, mkWallet 1000] =
      .ok (some ⟨.CRITICAL,
        [("valueChange", .num (-35)), ("currentValue", .num 650)], "wallet_value_drop"⟩) := by
  constructor
  · norm_num [detect_wallet_risks]
  · norm_num [detect_wallet_risks, valueDropRisks, impermanentLossRisks, mkWallet]

/-- C1 amended: against a history of two snapshots whose most recent has
total value 1000, `detect_wallet_risks` returns a CRITICAL
`wallet_value_drop` with `valueChange` = −40 at current total 600, CRITICAL
with −35 at 650, and CRITICAL with −50 at 500 (all three changes are below
the −30 CRITICAL threshold); with a single prior snapshot it returns none,
since detection requires at least two history entries. -/
theorem C1_wallet_value_drop_amended :
    detect_wallet_risks (mkWallet 600) [mkWallet 2000, mkWallet 1000] =
      .ok (some ⟨.CRITICAL,
        [("valueChange", .num (-40)), ("currentValue", .num 600)], "wallet_value_drop"⟩) ∧
    detect_wallet_risks (mkWallet 650) [mkWallet 2000, mkWallet 1000] =
      .ok (some ⟨.CRITICAL,
        [("valueChange", .num (-35)), ("currentValue", .num 650)], "wallet_value_drop"⟩) ∧
    detect_wallet_risks (mkWallet 500) [mkWallet 2000, mkWallet 1000] =
      .ok (some ⟨.CRITICAL,
        [("valueChange", .num (-50)), ("currentValue", .num 500)], "wallet_value_drop"⟩) ∧
    detect_wallet_risks (mkWallet 600) [mkWallet 1000] = .ok none := by
  refine ⟨?_, ?_, ?_, ?_⟩ <;>
    norm_num [detect_wallet_risks, valueDropRisks, impermanentLossRisks, mkWallet]

/-- C5: the detectors propagate Python's `ZeroDivisionError` instead of
returning none when a divisor is zero.  A pool history whose recent average
TVL is zero, a pool history whose average reserve ratio is zero, and a
wallet history whose previous total value is zero each make the detector
raise; only the per-position previous-value divisor is guarded in the
source. -/
theorem C5_zero_divisor_raises :
    detect_pool_anomalies (mkPool 5 1) (List.replicate 10 (mkPool 0 1)) =
      .error "ZeroDivisionError" ∧
    detect_pool_anomalies (mkPool 750 1) (List.replicate 10 (mkPool 1000 0)) =
      .error "ZeroDivisionError" ∧
    detect_wallet_risks (mkWallet 5) [mkWallet 0, mkWallet 0] =
      .error "ZeroDivisionError" := by
  refine ⟨?_, ?_, ?_⟩
  · norm_num [detect_pool_anomalies, recentAvgTvl, lastWindow, mkPool, List.sum_replicate]
  · norm_num [detect_pool_anomalies, recentAvgTvl, avgRatio, lastWindow, mkPool,
      List.sum_replicate]
  · norm_num [detect_wallet_risks, mkWallet]

/-- C6 counterexample: the claim's "regardless of the reserve-ratio values"
is false — when every reserve ratio in the window is zero the detector
raises `ZeroDivisionError` on the ratio average before it can return the
CRITICAL TVL alert, even though the TVL hypothesis of the claim holds. -/
theorem C6_pool_tvl_drop_counterexample :
    detect_pool_anomalies (mkPool 750 1) (List.replicate 10 (mkPool 1000 0)) =
      .error "ZeroDivisionError" ∧
    recentAvgTvl (List.replicate 10 (mkPool 1000 0)) = 1000 := by
  constructor
  · norm_num [detect_pool_anomalies, recentAvgTvl, avgRatio, lastWindow, mkPool,
      List.sum_replicate]
  · norm_num [recentAvgTvl, lastWindow, mkPool, List.sum_replicate]

/-- C6 amended: for every pool history of length at least 10 whose last-20
window averages a TVL of 1000, and whose window-average reserve ratio is
nonzero, a current snapshot with TVL 750 produces a CRITICAL
`pool_tvl_drop` whose `tvlChange` metric is exactly −25, regardless of the
individual reserve-ratio values. -/
theorem C6_pool_tvl_drop_amended (current : PoolData) (history : List PoolData)
    (hlen : 10 ≤ history.length) (havg : recentAvgTvl history = 1000)
    (hr : avgRatio history ≠ 0) (htvl : current.tvl = 750) :
    detect_pool_anomalies current history =
      .ok (some ⟨.CRITICAL, [("tvlChange", .num (-25))], "pool_tvl_drop"⟩) := by
  have hch : (current.tvl - recentAvgTvl history) / recentAvgTvl history * 100 = -25 := by
    rw [havg, htvl]; norm_num
  unfold detect_pool_anomalies
  rw [if_neg (by omega), if_neg (by rw [havg]; norm_num), hch, if_neg hr]
  norm_num [tvlDropRisks]

/-- C6 amended, witnessed at a concrete history: ten snapshots of TVL 1000
and ratio 1, current TVL 750. -/
theorem C6_pool_tvl_drop_witness :
    detect_pool_anomalies (mkPool 750 1) (List.replicate 10 (mkPool 1000 1)) =
      .ok (some ⟨.CRITICAL, [("tvlChange", .num (-25))], "pool_tvl_drop"⟩) :=
  C6_pool_tvl_drop_amended (mkPool 750 1) (List.replicate 10 (mkPool 1000 1))
    (by simp)
    (by norm_num [recentAvgTvl, lastWindow, mkPool, List.sum_replicate])
    (by norm_num [avgRatio, lastWindow, mkPool, List.sum_replicate])
    rfl

/-- C2 counterexample: responding "no" to pending action 1 through the
webhook does set its status to `rejected` and removes it from the pending
index, but a second response ("yes") to the same id then yields the
not-found result while STILL rewriting the record — its status becomes
`approved` — because `respond_to_action` calls `update_action_response`
before the pending-index lookup.  So the second response does cause a
further state change, refuting the claim. -/
theorem C2_second_response_counterexample :
    afterNoState.actions 1 = some ⟨"rejected", some "no"⟩ ∧
    1 ∉ afterNoState.pending_actions ∧
    (respond_to_action afterNoState 1 "yes").2 = "Action not found" ∧
    (respond_to_action afterNoState 1 "yes").1.actions 1 = some ⟨"approved", some "yes"⟩ := by
  refine ⟨?_, ?_, ?_, ?_⟩ <;>
    simp [afterNoState, pendingOneState, telegram_webhook_callback, respond_to_action,
      update_action_response, mark_action_executed, pyLower, pyCharLower]

/-- C2 amended: responding "no" to the pending action transitions it to
`rejected` and (on the webhook path) removes it from the pending index; a
second response to the same id then returns the not-found result, but it is
not state-preserving: the unconditional `update_action_response` call still
rewrites the record before the lookup, setting its status to `approved`
when the second response lower-cases to "yes" and to `rejected` otherwise. -/
theorem C2_second_response_amended (response : String) :
    afterNoState.actions 1 = some ⟨"rejected", some "no"⟩ ∧
    1 ∉ afterNoState.pending_actions ∧
    (respond_to_action afterNoState 1 response).2 = "Action not found" ∧
    (respond_to_action afterNoState 1 response).1.actions 1 =
      some ⟨if pyLower response = "yes" then "approved" else "rejected", some response⟩ := by
  refine ⟨?_, ?_, ?_, ?_⟩ <;>
    simp [afterNoState, pendingOneState, telegram_webhook_callback, respond_to_action,
      update_action_response, mark_action_executed, pyLower, pyCharLower]

/-- C3 counterexample: neither `executed` nor `rejected` is terminal on
either response path — a "no" response for an already-executed action (gone
from the pending index) rewrites its status to `rejected` both through
`respond_to_action` and through the webhook callback, and a "yes" response
for an already-rejected action rewrites its status to `approved` on both
paths. -/
theorem C3_terminal_counterexample :
    executedOneState.actions 1 = some ⟨"executed", some "yes"⟩ ∧
    (respond_to_action executedOneState 1 "no").1.actions 1 =
      some ⟨"rejected", some "no"⟩ ∧
    (telegram_webhook_callback executedOneState 1 "no").actions 1 =
      some ⟨"rejected", some "no"⟩ ∧
    rejectedOneState.actions 1 = some ⟨"rejected", some "no"⟩ ∧
    (respond_to_action rejectedOneState 1 "yes").1.actions 1 =
      some ⟨"approved", some "yes"⟩ ∧
    (telegram_webhook_callback rejectedOneState 1 "yes").actions 1 =
      some ⟨"approved", some "yes"⟩ := by
  refine ⟨?_, ?_, ?_, ?_, ?_, ?_⟩ <;>
    simp [executedOneState, rejectedOneState, respond_to_action,
      telegram_webhook_callback, update_action_response, mark_action_executed,
      pyLower, pyCharLower]

/-- C3 amended: the status a record holds after either response path is
determined solely by the response text and by pending-index membership,
independent of the record's previous status.  For `respond_to_action`:
`executed` on a pending-index hit with a response lower-casing to "yes",
`approved` on a miss with such a response, `rejected` otherwise.  For the
webhook callback, whose executed-branch compares the literal `"yes"`:
`executed` on a hit with literal response "yes", `approved` when the
response merely lower-cases to "yes", `rejected` otherwise.  In particular
`executed` and `rejected` are not terminal: any later response carrying the
same action id overwrites them through the unconditional
`update_action_response` call that precedes the pending-index lookup on
both paths. -/
theorem C3_status_overwritten (s : ServerState) (action_id : Nat) (response : String)
    (r : ActionRecord) (h : s.actions action_id = some r) :
    (respond_to_action s action_id response).1.actions action_id =
      some ⟨if action_id ∈ s.pending_actions then
              (if pyLower response = "yes" then "executed" else "rejected")
            else
              (if pyLower response = "yes" then "approved" else "rejected"),
            some response⟩ ∧
    (telegram_webhook_callback s action_id response).actions action_id =
      some ⟨if action_id ∈ s.pending_actions then
              (if response = "yes" then "executed"
               else if pyLower response = "yes" then "approved" else "rejected")
            else
              (if pyLower response = "yes" then "approved" else "rejected"),
            some response⟩ := by
  constructor
  · simp only [respond_to_action, update_action_response, mark_action_executed]
    split_ifs <;> simp_all
  · simp only [telegram_webhook_callback, update_action_response, mark_action_executed]
    split_ifs <;> simp_all

/-- C3 witness: the amended overwrite rule for both paths, instantiated at
the concrete already-executed state with a "no" response. -/
theorem C3_status_overwritten_witness :
    ((respond_to_action executedOneState 1 "no").1.actions 1 =
      some ⟨if (1 : Nat) ∈ executedOneState.pending_actions then
              (if pyLower "no" = "yes" then "executed" else "rejected")
            else
              (if pyLower "no" = "yes" then "approved" else "rejected"),
            some "no"⟩) ∧
    ((telegram_webhook_callback executedOneState 1 "no").actions 1 =
      some ⟨if (1 : Nat) ∈ executedOneState.pending_actions then
              (if "no" = "yes" then "executed"
               else if pyLower "no" = "yes" then "approved" else "rejected")
            else
              (if pyLower "no" = "yes" then "approved" else "rejected"),
            some "no"⟩) :=
  C3_status_overwritten executedOneState 1 "no" ⟨"executed", some "yes"⟩ (by
    simp [executedOneState])

/-- C4 counterexample: with a CRITICAL alert and an AI round whose raw
output is not valid JSON, `generate_action_decision` returns the inner
"Review Portfolio" fallback with urgency "soon" — not the claimed
"Monitor Situation" decision with urgency "immediate". -/
theorem C4_invalid_json_counterexample :
    generate_action_decision
        ⟨.CRITICAL, [("valueChange", .num (-45))], "wallet_value_drop"⟩
        (.invalidJSON "not json") =
      ⟨"Review Portfolio", "Anomaly detected, manual review recommended", "soon",
        "Potential losses may increase"⟩ ∧
    (generate_action_decision
        ⟨.CRITICAL, [("valueChange", .num (-45))], "wallet_value_drop"⟩
        (.invalidJSON "not json")).urgency ≠ "immediate" ∧
    (generate_action_decision
        ⟨.CRITICAL, [("valueChange", .num (-45))], "wallet_value_drop"⟩
        (.invalidJSON "not json")).action ≠ "Monitor Situation" := by
  refine ⟨rfl, by simp [generate_action_decision], by simp [generate_action_decision]⟩

/-- C4 amended: when the AI collaborator returns text that is not valid
JSON, `generate_action_decision` returns the inner fallback
action="Review Portfolio", reasoning="Anomaly detected, manual review
recommended", urgency="soon", risk_if_ignored="Potential losses may
increase", for every alert and raw text; the claimed "Monitor Situation"
decision — reasoning "{severity} alert triggered", urgency "immediate"
exactly when the severity is CRITICAL and "soon" otherwise, risk
"Situation may worsen" — is produced only when the collaborator call
itself raises. -/
theorem C4_fallback_decisions :
    (∀ (alert : RiskAlert) (raw : String),
      generate_action_decision alert (.invalidJSON raw) =
        ⟨"Review Portfolio", "Anomaly detected, manual review recommended", "soon",
          "Potential losses may increase"⟩) ∧
    (∀ alert : RiskAlert,
      generate_action_decision alert .raised =
        ⟨"Monitor Situation", alert.severity.val ++ " alert triggered",
          if alert.severity = .CRITICAL then "immediate" else "soon",
          "Situation may worsen"⟩) ∧
    (∀ alert : RiskAlert,
      (generate_action_decision alert .raised).urgency = "immediate" ↔
        alert.severity = .CRITICAL) := by
  refine ⟨fun _ _ => rfl, fun _ => rfl, fun alert => ?_⟩
  simp only [generate_action_decision]
  split_ifs with h <;> simp [h]

/-- Appending through `appendTrim` keeps a history at or below its cap. -/
theorem appendTrim_length_le {α : Type} (cap : Nat) (history : List α) (x : α)
    (hl : history.length ≤ cap) : (appendTrim cap history x).length ≤ cap := by
  unfold appendTrim
  split_ifs with hc <;> simp_all

/-- At a full history, `appendTrim` evicts exactly the oldest entry. -/
theorem appendTrim_full {α : Type} (cap : Nat) (history : List α) (x : α)
    (hl : history.length = cap) (hc : 0 < cap) :
    appendTrim cap history x = history.tail ++ [x] := by
  unfold appendTrim
  rw [if_pos (by simp [hl])]
  rw [List.drop_append_of_le_length (by omega), List.drop_one]

/-- C7: every snapshot-appending operation (the pool and wallet branches of
`monitor_loop`, `/pool/check`, `/wallet/analyze`) keeps pool histories at
no more than 100 entries and wallet histories at no more than 50, and
appending a 101st pool snapshot leaves exactly 100 entries with the oldest
entry evicted (the new history is the old history's tail plus the new
snapshot). -/
theorem C7_history_trimming (hp : List PoolData) (p : PoolData)
    (hw : List WalletPortfolio) (w : WalletPortfolio) :
    (hp.length ≤ 100 → (monitor_pool_step hp p).2.length ≤ 100) ∧
    (hp.length ≤ 100 → (check_pool_step hp p).2.length ≤ 100) ∧
    (hw.length ≤ 50 →
      (monitor_wallet_step hw w).2.length ≤ 50 ∧ (analyze_wallet_step hw w).2.length ≤ 50) ∧
    (hp.length = 100 →
      (monitor_pool_step hp p).2 = hp.tail ++ [p] ∧
      (check_pool_step hp p).2 = hp.tail ++ [p] ∧
      (monitor_pool_step hp p).2.length = 100) := by
  have hck : (check_pool_step hp p).2 = appendTrim 100 hp p := rfl
  refine ⟨fun h => ?_, fun h => ?_, fun h => ⟨?_, ?_⟩, fun h => ⟨?_, ?_, ?_⟩⟩
  · exact appendTrim_length_le 100 hp p h
  · rw [hck]; exact appendTrim_length_le 100 hp p h
  · exact appendTrim_length_le 50 hw w h
  · exact appendTrim_length_le 50 hw w h
  · exact appendTrim_full 100 hp p h (by norm_num)
  · rw [hck]; exact appendTrim_full 100 hp p h (by norm_num)
  · show (appendTrim 100 hp p).length = 100
    rw [appendTrim_full 100 hp p h (by norm_num)]
    simp [List.length_tail]
    omega

/-- C7 witnessed at a full pool history of 100 snapshots and a full wallet
history of 50 snapshots. -/
theorem C7_history_trimming_witness :
    (monitor_pool_step (List.replicate 100 (mkPool 1 1)) (mkPool 2 1)).2.length ≤ 100 ∧
    (check_pool_step (List.replicate 100 (mkPool 1 1)) (mkPool 2 1)).2.length ≤ 100 ∧
    (monitor_wallet_step (List.replicate 50 (mkWallet 1)) (mkWallet 2)).2.length ≤ 50 ∧
    (monitor_pool_step (List.replicate 100 (mkPool 1 1)) (mkPool 2 1)).2 =
      (List.replicate 100 (mkPool 1 1)).tail ++ [mkPool 2 1] ∧
    (monitor_pool_step (List.replicate 100 (mkPool 1 1)) (mkPool 2 1)).2.length = 100 := by
  have T := C7_history_trimming (List.replicate 100 (mkPool 1 1)) (mkPool 2 1)
    (List.replicate 50 (mkWallet 1)) (mkWallet 2)
  exact ⟨T.1 (by simp), T.2.1 (by simp), (T.2.2.1 (by simp)).1,
    (T.2.2.2 (by simp)).1, (T.2.2.2 (by simp)).2.2⟩

/-- C8: starting monitoring while the flag is already set returns the state
unchanged (in particular no second loop is scheduled) and reports
`already_running`; stopping while the flag is already clear returns the
state unchanged and reports `stopped`. -/
theorem C8_start_stop_idempotent (s : MonitorState) :
    (s.monitoring_active = true → start_monitoring s = (s, "already_running")) ∧
    (s.monitoring_active = false → stop_monitoring s = (s, "stopped")) := by
  obtain ⟨a, n⟩ := s
  constructor
  · intro h; simp only at h; subst h; simp [start_monitoring]
  · intro h; simp only at h; subst h; simp [stop_monitoring]

/-- C8 witnessed at a running state with one loop started and at a stopped
state. -/
theorem C8_start_stop_idempotent_witness :
    start_monitoring ⟨true, 1⟩ = (⟨true, 1⟩, "already_running") ∧
    stop_monitoring ⟨false, 0⟩ = (⟨false, 0⟩, "stopped") :=
  ⟨(C8_start_stop_idempotent ⟨true, 1⟩).1 rfl,
   (C8_start_stop_idempotent ⟨false, 0⟩).2 rfl⟩

/-- C9: `/pool/check` runs detection on the history with the fresh snapshot
already appended, while the monitor loop runs it on the stored history
alone; the two baselines genuinely disagree: on a stored history of nine
snapshots of TVL 100 and a fresh snapshot of TVL 0, the monitor-loop path
reports no alert (history still below the 10-entry minimum) while the
`/pool/check` path reports a CRITICAL `pool_tvl_drop` with `tvlChange`
−100. -/
theorem C9_check_vs_monitor_baseline :
    (∀ (history : List PoolData) (current : PoolData),
      (check_pool_step history current).1 =
        detect_pool_anomalies current (history ++ [current])) ∧
    (∀ (history : List PoolData) (current : PoolData),
      (monitor_pool_step history current).1 = detect_pool_anomalies current history) ∧
    (monitor_pool_step (List.replicate 9 (mkPool 100 1)) (mkPool 0 1)).1 = .ok none ∧
    (check_pool_step (List.replicate 9 (mkPool 100 1)) (mkPool 0 1)).1 =
      .ok (some ⟨.CRITICAL, [("tvlChange", .num (-100))], "pool_tvl_drop"⟩) := by
  refine ⟨fun _ _ => rfl, fun _ _ => rfl, ?_, ?_⟩
  · norm_num [monitor_pool_step, detect_pool_anomalies]
  · norm_num [check_pool_step, detect_pool_anomalies, recentAvgTvl, avgRatio, lastWindow,
      mkPool, tvlDropRisks, imbalanceRisks, List.sum_replicate]

/-- C10: the `src/main_local.py` variant of `detect_wallet_risks` can only
ever report `wallet_value_drop` alerts — never `impermanent_loss` — and the
two variants are not extensionally equal: on a portfolio whose total value
is unchanged but whose Ubeswap liquidity-pool position fell 20%, the
`src/main.py` variant reports a MEDIUM `impermanent_loss` alert while the
`src/main_local.py` variant reports none. -/
theorem C10_local_no_impermanent_loss :
    (∀ (current : WalletPortfolio) (history : List WalletPortfolio) (a : RiskAlert),
      detect_wallet_risks_local current history = .ok (some a) →
        a.alertType = "wallet_value_drop") ∧
    detect_wallet_risks (mkWalletLP 1000 80) [mkWalletLP 1000 100, mkWalletLP 1000 100] =
      .ok (some ⟨.MEDIUM,
        [("positionChange", .num (-20)), ("protocol", .str "Ubeswap")],
        "impermanent_loss"⟩) ∧
    detect_wallet_risks_local (mkWalletLP 1000 80)
      [mkWalletLP 1000 100, mkWalletLP 1000 100] = .ok none := by
  refine ⟨?_, ?_, ?_⟩
  · intro current history a h
    unfold detect_wallet_risks_local at h
    split at h
    · simp at h
    · split at h
      · simp at h
      · split at h
        · simp at h
        · simp only [Except.ok.injEq] at h
          unfold valueDropRisks at h
          split_ifs at h
          · simp only [List.head?_cons, Option.some.injEq] at h
            subst h; rfl
          · simp only [List.head?_cons, Option.some.injEq] at h
            subst h; rfl
          · simp at h
  · norm_num [detect_wallet_risks, valueDropRisks, impermanentLossRisks, mkWalletLP]
  · norm_num [detect_wallet_risks_local, valueDropRisks, mkWalletLP]

/-- C10 witnessed: the local variant's alert on a 40% total-value drop has
alert type `wallet_value_drop`, via the general never-impermanent-loss
property applied at that input. -/
theorem C10_local_no_impermanent_loss_witness :
    detect_wallet_risks_local (mkWallet 600) [mkWallet 1000, mkWallet 1000] =
      .ok (some ⟨.CRITICAL,
        [("valueChange", .num (-40)), ("currentValue", .num 600)], "wallet_value_drop"⟩) ∧
    (⟨.CRITICAL, [("valueChange", MetricVal.num (-40)), ("currentValue", MetricVal.num 600)],
        "wallet_value_drop"⟩ : RiskAlert).alertType = "wallet_value_drop" := by
  have h : detect_wallet_risks_local (mkWallet 600) [mkWallet 1000, mkWallet 1000] =
      .ok (some ⟨.CRITICAL,
        [("valueChange", .num (-40)), ("currentValue", .num 600)], "wallet_value_drop"⟩) := by
    norm_num [detect_wallet_risks_local, valueDropRisks, mkWallet]
  exact ⟨h, C10_local_no_impermanent_loss.1 _ _ _ h⟩

end Jarvis
